import Mathlib

/-!
Verification of the dnsinfo client of configd (`src/dnsinfo/dnsinfo_copy.c`)
and of the interface-rank comparison of `src/nwi/network_information.h`.

The embedding follows the C source line by line.  Machine integers are
modelled as `Nat` (sizes, `size_t`, `uint32_t` header fields after `ntohl`)
and `Int` (the C `int` reference counter `dnsinfo_active`).  Byte buffers
are `List Nat`.  A C function that may crash the process via a failed
`assert` returns `Option _`, with `none` standing for the abort.
-/

namespace Configd

/--
The wire blob carried in the `DNSINFO_CONFIGURATION` field of a reply, as
`dns_configuration_copy` reads it: the raw received bytes together with the
two header fields `n_attribute` and `n_padding` that the code reads from the
leading `_dns_config_buf_t` header (after `ntohl`).  The header layout itself
lives in `dnsinfo_private.h`, which is not part of the sources here; per the
spec the blob is `[header][attributeBytes][paddingBytes]` with the header
carrying the big-endian-normalized `attributeLength` and `paddingLength`, so
the two fields are carried alongside the bytes.
-/
structure WireData where
  n_attribute : Nat
  n_padding : Nat
  bytes : List Nat
deriving Repr, DecidableEq

/--
The body of the `if (reply != NULL)` block of `dns_configuration_copy`
(`dnsinfo_copy.c:162-207`), producing the local `buf`.

`hdr` is `sizeof(_dns_config_buf_t)` and `maxB` is `DNS_CONFIG_BUF_MAX`;
both constants are defined in `dnsinfo_private.h` (not among the sources),
so they are parameters here.  The argument `d` is the result of
`xpc_dictionary_get_data(reply, DNSINFO_CONFIGURATION, &dataLen)`:
`none` when `dataRef == NULL`.

The result is `none` when the process aborts on a failed `assert`
(lines 181, 190, 200), and `some b` when the block finishes with `buf = b`
(`b = none` meaning `buf` was left `NULL`, `b = some bytes` meaning a
buffer of those bytes was allocated at lines 204-206).
-/
def processReply (hdr maxB : Nat) (d : Option WireData) : Option (Option (List Nat)) :=
  match d with
  | none => some none
  | some w =>
    let dataLen := w.bytes.length
    if hdr ≤ dataLen ∧ dataLen ≤ maxB then
      -- configLen = sizeof(_dns_config_buf_t) + n_attribute; assert(configLen == dataLen)
      let configLen := hdr + w.n_attribute
      if configLen = dataLen then
        -- assert(n_padding <= (DNS_CONFIG_BUF_MAX - dataLen))
        if w.n_padding ≤ maxB - dataLen then
          -- bufLen = dataLen + n_padding; assert(bufLen <= DNS_CONFIG_BUF_MAX)
          let bufLen := dataLen + w.n_padding
          if bufLen ≤ maxB then
            -- malloc(bufLen); bcopy(dataRef, buf, dataLen); bzero(&buf[dataLen], n_padding)
            some (some (w.bytes ++ List.replicate w.n_padding 0))
          else none
        else none
      else none
    else some none

/--
The expanded configuration (`dns_config_t`).  Only the `generation` field is
ever read by the code at hand (`_dns_configuration_ack`, line 269).
-/
structure DNSConfig where
  generation : Nat
deriving Repr, DecidableEq

/--
The per-process client state protected by `__dns_configuration_queue()`:
the reference counter `dnsinfo_active` (a C `int`) and the connection handle
`dnsinfo_client` (`NULL` or a client with its `active` flag), cf.
`dnsinfo_copy.c:59-61`.
-/
structure DNSState where
  dnsinfo_active : Int
  dnsinfo_client : Option Bool
deriving Repr, DecidableEq

/--
The environment one call of `dns_configuration_copy` runs against:
whether `libSC_info_available()` holds, what `libSC_info_client_create`
would return (`none` = `NULL`, `some a` = a client whose `active` flag is
`a`), the two buffer-size constants, the reply returned by
`libSC_send_message_with_reply_sync` (`none` = `NULL` reply; the inner
`Option WireData` is the `DNSINFO_CONFIGURATION` data field), and the
behaviour of `_dns_configuration_expand_config` on a given buffer
(`none` = `NULL`, i.e. expansion failed).
-/
structure CopyEnv where
  libSC_available : Bool
  createResult : Option Bool
  hdrSize : Nat
  maxBuf : Nat
  reply : Option (Option WireData)
  expand : List Nat → Option DNSConfig

/--
The `dispatch_sync` block of `dns_configuration_copy`
(`dnsinfo_copy.c:109-137`): `dnsinfo_active++` always happens (it is the
first operand of the `||`); when the old count was zero or the client handle
was `NULL`, `libSC_info_client_create` is attempted, and on failure the
increment is rolled back (`--dnsinfo_active`) and the handle is the returned
`NULL`.
-/
def acquireStep (env : CopyEnv) (s : DNSState) : DNSState :=
  if s.dnsinfo_active = 0 ∨ s.dnsinfo_client = none then
    match env.createResult with
    | none => ⟨s.dnsinfo_active + 1 - 1, none⟩
    | some a => ⟨s.dnsinfo_active + 1, some a⟩
  else ⟨s.dnsinfo_active + 1, s.dnsinfo_client⟩

/--
What one call of `dns_configuration_copy` produced: the returned
`dns_config_t` pointer (`none` = `NULL`), the local `buf` at the point the
expansion step runs (line 212; `none` = `buf` stayed `NULL`), whether
`free(buf)` was executed (line 216), and the client state after the call.
-/
structure CopyOutcome where
  config : Option DNSConfig
  buf : Option (List Nat)
  bufFreed : Bool
  state : DNSState
deriving Repr, DecidableEq

/--
The function `dns_configuration_copy` (`dnsinfo_copy.c:94-221`).  Result `none` means the
process aborted on a failed `assert`; `some o` means the call returned, with
outcome `o`.
-/
def dns_configuration_copy (env : CopyEnv) (s : DNSState) : Option CopyOutcome :=
  if env.libSC_available = false then
    -- "DNS configuration requested between fork() and exec()": return NULL
    some ⟨none, none, false, s⟩
  else
    let s1 := acquireStep env s
    match s1.dnsinfo_client with
    | none => some ⟨none, none, false, s1⟩        -- server not available
    | some act =>
      if act = false then some ⟨none, none, false, s1⟩
      else
        match env.reply with
        | none => some ⟨none, none, false, s1⟩    -- reply == NULL, buf stays NULL
        | some d =>
          match processReply env.hdrSize env.maxBuf d with
          | none => none                           -- assert failed: CRASH
          | some none => some ⟨none, none, false, s1⟩
          | some (some b) =>
            match env.expand b with
            | none => some ⟨none, some b, true, s1⟩   -- expansion failed: free(buf)
            | some cfg => some ⟨some cfg, some b, false, s1⟩

/--
The function `dns_configuration_free` (`dnsinfo_copy.c:224-241`).  Returns the state after
the call together with a flag recording whether the physical channel was
torn down during this call (`libSC_info_client_release` called and
`dnsinfo_client` cleared, lines 232-236).
-/
def dns_configuration_free (config : Option DNSConfig) (s : DNSState) : DNSState × Bool :=
  match config with
  | none => (s, false)
  | some _ =>
    let a := s.dnsinfo_active - 1
    if a = 0 then (⟨0, none⟩, true) else (⟨a, s.dnsinfo_client⟩, false)

/-- Request-type constant `DNSINFO_REQUEST_ACKNOWLEDGE`.  Its numeric value is
defined in `dnsinfo_private.h` (not among the sources); only its distinctness
from `DNSINFO_REQUEST_COPY` matters. -/
def DNSINFO_REQUEST_ACKNOWLEDGE : Nat := 2

/-- The message `_dns_configuration_ack` sends: the request type and the
acknowledged generation (`dnsinfo_copy.c:263-272`). -/
structure AckMessage where
  request : Nat
  generation : Nat
deriving Repr, DecidableEq

/--
The function `_dns_configuration_ack` (`dnsinfo_copy.c:244-276`).  Returns the client
state after the call and the message handed to
`xpc_connection_send_message` (`none` when the call returned early and sent
nothing).  `xpc_connection_send_message` does not wait for a reply, which is
why the result carries no reply at all.
-/
def dns_configuration_ack (config : Option DNSConfig) (s : DNSState) :
    DNSState × Option AckMessage :=
  match config with
  | none => (s, none)
  | some c =>
    match s.dnsinfo_client with
    | none => (s, none)
    | some act =>
      if act = false then (s, none)
      else (⟨s.dnsinfo_active + 1, s.dnsinfo_client⟩,
            some ⟨DNSINFO_REQUEST_ACKNOWLEDGE, c.generation⟩)

/--
Iteration: `n` successive calls of `dns_configuration_copy` under the fixed environment
`env`, each required to return a non-`NULL` configuration; the result is the
client state afterwards, `none` if some call aborted or returned `NULL`.
-/
def copyN (env : CopyEnv) : Nat → DNSState → Option DNSState
  | 0, s => some s
  | n + 1, s =>
    match dns_configuration_copy env s with
    | none => none
    | some o => if o.config.isSome then copyN env n o.state else none

/--
Iteration: `n` successive calls of `dns_configuration_free` (each with some non-`NULL`
configuration); the result is the client state afterwards together with the
number of calls that tore the physical channel down.
-/
def freeN : Nat → DNSState → DNSState × Nat
  | 0, s => (s, 0)
  | n + 1, s =>
    let r := dns_configuration_free (some ⟨0⟩) s
    let r2 := freeN n r.1
    (r2.1, (if r.2 then 1 else 0) + r2.2)

/--
Modelled from the spec: the implementation of `nwi_ifstate_compare_rank` is
not among the sources (`src/nwi/network_information.h` carries only its
declaration), so the interface-state record is modelled from the spec: an
`interfaceName`, a `flags` bitset, and the stored position/priority metadata
(`rank`, lower = higher priority) that rank comparison is a pure function of.
-/
structure NwiIfstate where
  ifname : String
  flags : Nat
  rank : Nat
deriving Repr, DecidableEq

/--
Modelled from the spec: `nwi_ifstate_compare_rank` per its declaration
(`network_information.h:143-156`) returns 0 if the two states are ranked
equally, -1 if the first is ranked ahead, 1 if the second is ranked ahead,
comparing only the stored rank metadata.
-/
def nwi_ifstate_compare_rank (a b : NwiIfstate) : Int :=
  if a.rank < b.rank then -1
  else if b.rank < a.rank then 1
  else 0

/-! Helper lemmas -/

/-- Evaluation of `processReply` on a non-`NULL` data blob, written as nested conditionals. -/
theorem processReply_some_eq (hdr maxB : Nat) (w : WireData) :
    processReply hdr maxB (some w) =
      if hdr ≤ w.bytes.length ∧ w.bytes.length ≤ maxB then
        if hdr + w.n_attribute = w.bytes.length then
          if w.n_padding ≤ maxB - w.bytes.length then
            if w.bytes.length + w.n_padding ≤ maxB then
              some (some (w.bytes ++ List.replicate w.n_padding 0))
            else none
          else none
        else none
      else some none := rfl

/-- A blob whose byte count falls outside `[hdr, maxB]` is skipped softly:
`buf` stays `NULL`, no assert runs. -/
theorem processReply_out_of_range (hdr maxB : Nat) (w : WireData)
    (h : w.bytes.length < hdr ∨ maxB < w.bytes.length) :
    processReply hdr maxB (some w) = some none := by
  rw [processReply_some_eq]
  have hn : ¬(hdr ≤ w.bytes.length ∧ w.bytes.length ≤ maxB) := by omega
  rw [if_neg hn]

/-- An in-range blob whose declared attribute length plus the header size
does not equal the byte count hits the first `assert` and aborts. -/
theorem processReply_mismatch (hdr maxB : Nat) (w : WireData)
    (h1 : hdr ≤ w.bytes.length) (h2 : w.bytes.length ≤ maxB)
    (h3 : hdr + w.n_attribute ≠ w.bytes.length) :
    processReply hdr maxB (some w) = none := by
  rw [processReply_some_eq, if_pos ⟨h1, h2⟩, if_neg h3]

/-- A blob satisfying the three size invariants passes all four checks and
yields the received bytes followed by `n_padding` zero bytes. -/
theorem processReply_valid (hdr maxB : Nat) (w : WireData)
    (i1 : hdr + w.n_attribute = w.bytes.length)
    (i2 : w.n_padding ≤ maxB - w.bytes.length)
    (i3 : w.bytes.length + w.n_padding ≤ maxB) :
    processReply hdr maxB (some w) =
      some (some (w.bytes ++ List.replicate w.n_padding 0)) := by
  rw [processReply_some_eq, if_pos ⟨by omega, by omega⟩, if_pos i1, if_pos i2, if_pos i3]

/-- When the `dispatch_sync` block leaves an active client behind, the block
incremented the refcount and the client handle is `some true`. -/
theorem acquireStep_client_active (env : CopyEnv) (s : DNSState)
    (h : (acquireStep env s).dnsinfo_client = some true) :
    acquireStep env s = ⟨s.dnsinfo_active + 1, some true⟩ := by
  unfold acquireStep at h ⊢
  by_cases g : s.dnsinfo_active = 0 ∨ s.dnsinfo_client = none
  · rw [if_pos g] at h ⊢
    cases hc : env.createResult with
    | none => rw [hc] at h; simp at h
    | some a => rw [hc] at h; simp at h; subst h; rfl
  · rw [if_neg g] at h ⊢
    simp at h
    rw [h]

/-- The `dispatch_sync` block when the connection is created afresh and
creation succeeds with an active client. -/
theorem acquireStep_create (env : CopyEnv) (s : DNSState)
    (h1 : s.dnsinfo_active = 0 ∨ s.dnsinfo_client = none)
    (h2 : env.createResult = some true) :
    acquireStep env s = ⟨s.dnsinfo_active + 1, some true⟩ := by
  unfold acquireStep
  rw [if_pos h1, h2]

/-- The `dispatch_sync` block when an open connection is reused. -/
theorem acquireStep_reuse (env : CopyEnv) (s : DNSState)
    (h1 : ¬(s.dnsinfo_active = 0 ∨ s.dnsinfo_client = none)) :
    acquireStep env s = ⟨s.dnsinfo_active + 1, s.dnsinfo_client⟩ := by
  unfold acquireStep
  rw [if_neg h1]

/-- The `dispatch_sync` block when client creation is attempted and fails:
the increment is rolled back and the handle is the `NULL` creation result. -/
theorem acquireStep_fail (env : CopyEnv) (s : DNSState)
    (h1 : s.dnsinfo_active = 0 ∨ s.dnsinfo_client = none)
    (h2 : env.createResult = none) :
    acquireStep env s = ⟨s.dnsinfo_active, none⟩ := by
  unfold acquireStep
  rw [if_pos h1, h2]
  simp

/-! Claim theorems -/

/--
C1 (amended): for every received snapshot blob whose byte count lies within
`[headerSize, maxBufferSize]` and whose declared attribute length plus the
fixed header size does not equal the received byte count, the copy call
aborts the process (failed assert), regardless of the declared padding
value and before any expansion of the buffer occurs.
-/
theorem dns_copy_attr_size_mismatch_aborts (env : CopyEnv) (s : DNSState) (w : WireData)
    (hA : env.libSC_available = true)
    (hC : (acquireStep env s).dnsinfo_client = some true)
    (hR : env.reply = some (some w))
    (h1 : env.hdrSize ≤ w.bytes.length) (h2 : w.bytes.length ≤ env.maxBuf)
    (h3 : env.hdrSize + w.n_attribute ≠ w.bytes.length) :
    dns_configuration_copy env s = none := by
  have hacq := acquireStep_client_active env s hC
  have hP := processReply_mismatch env.hdrSize env.maxBuf w h1 h2 h3
  unfold dns_configuration_copy
  simp [hA, hacq, hR, hP]

/--
C1 counterexample: a received blob of 101 bytes (with header size 8 and
maximum buffer size 100) declares attribute length 40, so the declared
attribute length plus the header size (48) differs from the received byte
count (101); yet processing does not abort — the blob is skipped softly
(`buf` stays `NULL`) because the byte count fails the range guard that runs
before the asserts.
-/
theorem dns_copy_attr_size_mismatch_not_always_fatal :
    8 + (40 : Nat) ≠ (List.replicate 101 (0 : Nat)).length ∧
    processReply 8 100 (some ⟨40, 7, List.replicate 101 0⟩) = some none ∧
    processReply 8 100 (some ⟨40, 7, List.replicate 101 0⟩) ≠ none := by
  refine ⟨by decide, by decide, by decide⟩

/--
C1 witness: the spec's corruption scenario — a reply blob declaring
`attributeLength = 40` with a received byte count of 30 (header size 8,
maximum 100) makes the copy call abort.
-/
theorem dns_copy_attr_size_mismatch_aborts_witness :
    dns_configuration_copy
      ⟨true, some true, 8, 100, some (some ⟨40, 0, List.replicate 30 0⟩), fun _ => some ⟨1⟩⟩
      ⟨0, none⟩ = none :=
  dns_copy_attr_size_mismatch_aborts _ _ ⟨40, 0, List.replicate 30 0⟩
    rfl rfl rfl (by decide) (by decide) (by decide)

/--
C2 (amended): checks 2 and 3 (declared attribute length consistency and the
padding bound, together with the derived total-size check 4) are hard-fail
abort conditions — every in-range blob violating one of them aborts the
process; check 1 (received byte count within `[minHeaderSize, maxBufferSize]`)
is a soft guard — a blob violating it yields a recoverable no-data result,
not an abort.
-/
theorem dns_copy_checks_hard_and_soft (hdr maxB : Nat) (w : WireData) :
    ((hdr ≤ w.bytes.length ∧ w.bytes.length ≤ maxB) →
      (hdr + w.n_attribute ≠ w.bytes.length ∨
       maxB - w.bytes.length < w.n_padding ∨
       maxB < w.bytes.length + w.n_padding) →
      processReply hdr maxB (some w) = none) ∧
    ((w.bytes.length < hdr ∨ maxB < w.bytes.length) →
      processReply hdr maxB (some w) = some none) := by
  constructor
  · rintro ⟨h1, h2⟩ h3
    rw [processReply_some_eq, if_pos ⟨h1, h2⟩]
    by_cases g2 : hdr + w.n_attribute = w.bytes.length
    · rw [if_pos g2]
      by_cases g3 : w.n_padding ≤ maxB - w.bytes.length
      · exfalso
        omega
      · rw [if_neg g3]
    · rw [if_neg g2]
  · exact processReply_out_of_range hdr maxB w

/--
C2 counterexample: a blob of 120 bytes (header size 8, maximum 100) violates
check 1 — its byte count exceeds the maximum — yet the process does not
abort: processing returns the soft no-buffer result.  (Its declared
attribute length 112 would even satisfy check 2.)
-/
theorem dns_copy_check_one_violation_no_abort :
    100 < (List.replicate 120 (0 : Nat)).length ∧
    processReply 8 100 (some ⟨112, 0, List.replicate 120 0⟩) = some none ∧
    processReply 8 100 (some ⟨112, 0, List.replicate 120 0⟩) ≠ none := by
  refine ⟨by decide, by decide, by decide⟩

/--
C2 witness: a blob of 30 in-range bytes whose padding bound is violated
(declared padding 200 with maximum 100) aborts the process.
-/
theorem dns_copy_checks_hard_and_soft_witness :
    processReply 8 100 (some ⟨22, 200, List.replicate 30 0⟩) = none :=
  (dns_copy_checks_hard_and_soft 8 100 ⟨22, 200, List.replicate 30 0⟩).1
    (by decide) (by decide)

/--
C3: for every received blob whose `(attributeLength, paddingLength)` pair
satisfies the three size invariants, the copy call does not abort and the
in-memory buffer handed to expansion has length exactly
`receivedLength + paddingLength`, with the received bytes copied unchanged
at the front and the trailing padding region zero-filled.
-/
theorem dns_copy_valid_sizes_buffer_exact (env : CopyEnv) (s : DNSState) (w : WireData)
    (hA : env.libSC_available = true)
    (hC : (acquireStep env s).dnsinfo_client = some true)
    (hR : env.reply = some (some w))
    (i1 : env.hdrSize + w.n_attribute = w.bytes.length)
    (i2 : w.n_padding ≤ env.maxBuf - w.bytes.length)
    (i3 : w.bytes.length + w.n_padding ≤ env.maxBuf) :
    Option.map CopyOutcome.buf (dns_configuration_copy env s) =
      some (some (w.bytes ++ List.replicate w.n_padding 0)) ∧
    (w.bytes ++ List.replicate w.n_padding 0).length = w.bytes.length + w.n_padding ∧
    (w.bytes ++ List.replicate w.n_padding 0).take w.bytes.length = w.bytes ∧
    (w.bytes ++ List.replicate w.n_padding 0).drop w.bytes.length =
      List.replicate w.n_padding 0 := by
  have hacq := acquireStep_client_active env s hC
  have hP := processReply_valid env.hdrSize env.maxBuf w i1 i2 i3
  have hlen : (w.bytes ++ List.replicate w.n_padding 0).length =
      w.bytes.length + w.n_padding := by simp
  have htake : (w.bytes ++ List.replicate w.n_padding 0).take w.bytes.length =
      w.bytes := by simp
  have hdrop : (w.bytes ++ List.replicate w.n_padding 0).drop w.bytes.length =
      List.replicate w.n_padding 0 := by simp
  refine ⟨?_, hlen, htake, hdrop⟩
  cases hE : env.expand (w.bytes ++ List.replicate w.n_padding 0) with
  | none =>
    unfold dns_configuration_copy
    simp [hA, hacq, hR, hP, hE]
  | some cfg =>
    unfold dns_configuration_copy
    simp [hA, hacq, hR, hP, hE]

/--
C3 witness: a blob of 10 bytes (header size 8, declared attribute length 2,
declared padding 5, maximum 100) is accepted and the buffer handed to
expansion is the 10 received bytes followed by 5 zero bytes.
-/
theorem dns_copy_valid_sizes_buffer_exact_witness :
    Option.map CopyOutcome.buf
      (dns_configuration_copy
        ⟨true, some true, 8, 100, some (some ⟨2, 5, List.replicate 10 1⟩), fun _ => some ⟨1⟩⟩
        ⟨0, none⟩) =
      some (some (List.replicate 10 1 ++ List.replicate 5 0)) ∧
    (List.replicate 10 1 ++ List.replicate 5 0).length = (List.replicate 10 (1 : Nat)).length + 5 ∧
    (List.replicate 10 1 ++ List.replicate 5 0).take (List.replicate 10 (1 : Nat)).length =
      List.replicate 10 1 ∧
    (List.replicate 10 1 ++ List.replicate 5 0).drop (List.replicate 10 (1 : Nat)).length =
      List.replicate 5 0 :=
  dns_copy_valid_sizes_buffer_exact _ _ ⟨2, 5, List.replicate 10 1⟩
    rfl rfl rfl (by decide) (by decide) (by decide)

/--
C5: for every non-`NULL` configuration and a present, active client, the
acknowledge call increments the connection refcount by one and sends a
message carrying the ACK request type and the configuration's generation;
the call yields no reply (the message is sent without waiting for one).
-/
theorem dns_ack_bumps_refcount_and_sends (c : DNSConfig) (s : DNSState)
    (h : s.dnsinfo_client = some true) :
    dns_configuration_ack (some c) s =
      (⟨s.dnsinfo_active + 1, s.dnsinfo_client⟩,
       some ⟨DNSINFO_REQUEST_ACKNOWLEDGE, c.generation⟩) := by
  unfold dns_configuration_ack
  rw [h]
  simp [h]

/--
C5 witness: acknowledging generation 7 with refcount 2 and an active client
yields refcount 3 and the ACK message for generation 7.
-/
theorem dns_ack_bumps_refcount_and_sends_witness :
    dns_configuration_ack (some ⟨7⟩) ⟨2, some true⟩ =
      (⟨3, some true⟩, some ⟨DNSINFO_REQUEST_ACKNOWLEDGE, 7⟩) :=
  dns_ack_bumps_refcount_and_sends ⟨7⟩ ⟨2, some true⟩ rfl

/--
C6: for every copy call that attempts to establish the connection (refcount
was zero or the handle was `NULL`) and whose client creation fails, the
refcount increment performed for the call is rolled back inside the same
serialized block — the refcount after the call equals the refcount before —
and the caller receives the no-state (`NULL`) result.
-/
theorem dns_copy_create_failure_rolls_back (env : CopyEnv) (s : DNSState)
    (hA : env.libSC_available = true)
    (hB : s.dnsinfo_active = 0 ∨ s.dnsinfo_client = none)
    (hCr : env.createResult = none) :
    dns_configuration_copy env s =
      some ⟨none, none, false, ⟨s.dnsinfo_active, none⟩⟩ := by
  have hacq := acquireStep_fail env s hB hCr
  unfold dns_configuration_copy
  simp [hA, hacq]

/--
C6 witness: from a closed connection (refcount 0), a copy call whose client
creation fails returns `NULL` and leaves the refcount at 0.
-/
theorem dns_copy_create_failure_rolls_back_witness :
    dns_configuration_copy
      ⟨true, none, 8, 100, none, fun _ => none⟩ ⟨0, none⟩ =
      some ⟨none, none, false, ⟨0, none⟩⟩ :=
  dns_copy_create_failure_rolls_back _ _ rfl (Or.inl rfl) rfl

/--
C7: for every copy call made while the library reports the service
unreachable (between fork and exec), the call returns the no-state (`NULL`)
result immediately with the client state completely unchanged — no
connection attempt, no refcount mutation — whatever the rest of the
environment would have done.
-/
theorem dns_copy_unavailable_short_circuit (env : CopyEnv) (s : DNSState)
    (h : env.libSC_available = false) :
    dns_configuration_copy env s = some ⟨none, none, false, s⟩ := by
  unfold dns_configuration_copy
  rw [h]
  simp

/--
C7 witness: with the service unreachable, a copy call from refcount 5
returns `NULL` and leaves the state untouched, even though the environment
would have allowed creating a client and a valid reply.
-/
theorem dns_copy_unavailable_short_circuit_witness :
    dns_configuration_copy
      ⟨false, some true, 8, 100, some (some ⟨2, 0, List.replicate 10 1⟩), fun _ => some ⟨1⟩⟩
      ⟨5, some true⟩ = some ⟨none, none, false, ⟨5, some true⟩⟩ :=
  dns_copy_unavailable_short_circuit _ _ rfl

/--
C8: for every copy call whose reply blob passes the size-validation checks
(a buffer is produced) but whose structural expansion fails, the call
returns the recoverable no-data (`NULL`) result rather than aborting, and
the allocated buffer is released (`free(buf)` runs).
-/
theorem dns_copy_expand_failure_soft (env : CopyEnv) (s : DNSState)
    (w : WireData) (b : List Nat)
    (hA : env.libSC_available = true)
    (hC : (acquireStep env s).dnsinfo_client = some true)
    (hR : env.reply = some (some w))
    (hP : processReply env.hdrSize env.maxBuf (some w) = some (some b))
    (hE : env.expand b = none) :
    dns_configuration_copy env s =
      some ⟨none, some b, true, acquireStep env s⟩ := by
  have hacq := acquireStep_client_active env s hC
  unfold dns_configuration_copy
  simp [hA, hacq, hR, hP, hE]

/--
C8 witness: a valid 10-byte blob whose expansion fails makes the copy call
return `NULL` after freeing the allocated 15-byte buffer.
-/
theorem dns_copy_expand_failure_soft_witness :
    dns_configuration_copy
      ⟨true, some true, 8, 100, some (some ⟨2, 5, List.replicate 10 1⟩), fun _ => none⟩
      ⟨0, none⟩ =
      some ⟨none, some (List.replicate 10 1 ++ List.replicate 5 0), true,
        acquireStep
          ⟨true, some true, 8, 100, some (some ⟨2, 5, List.replicate 10 1⟩), fun _ => none⟩
          ⟨0, none⟩⟩ :=
  dns_copy_expand_failure_soft _ _ ⟨2, 5, List.replicate 10 1⟩
    (List.replicate 10 1 ++ List.replicate 5 0) rfl rfl rfl (by decide) rfl

/-- A copy call against an active client, a reply blob satisfying the size
invariants, and a successful expansion returns the expanded configuration
and leaves the refcount incremented. -/
theorem copy_success (env : CopyEnv) (s : DNSState) (w : WireData) (cfg : DNSConfig)
    (hA : env.libSC_available = true)
    (hC : (acquireStep env s).dnsinfo_client = some true)
    (hR : env.reply = some (some w))
    (i1 : env.hdrSize + w.n_attribute = w.bytes.length)
    (i2 : w.n_padding ≤ env.maxBuf - w.bytes.length)
    (i3 : w.bytes.length + w.n_padding ≤ env.maxBuf)
    (hE : env.expand (w.bytes ++ List.replicate w.n_padding 0) = some cfg) :
    dns_configuration_copy env s =
      some ⟨some cfg, some (w.bytes ++ List.replicate w.n_padding 0), false,
        ⟨s.dnsinfo_active + 1, some true⟩⟩ := by
  have hacq := acquireStep_client_active env s hC
  have hP := processReply_valid env.hdrSize env.maxBuf w i1 i2 i3
  unfold dns_configuration_copy
  simp [hA, hacq, hR, hP, hE]

/-- Iterated successful copies against an open connection: each call reuses
the channel and increments the refcount. -/
theorem copyN_open (env : CopyEnv) (w : WireData) (cfg : DNSConfig)
    (hA : env.libSC_available = true)
    (hR : env.reply = some (some w))
    (i1 : env.hdrSize + w.n_attribute = w.bytes.length)
    (i2 : w.n_padding ≤ env.maxBuf - w.bytes.length)
    (i3 : w.bytes.length + w.n_padding ≤ env.maxBuf)
    (hE : env.expand (w.bytes ++ List.replicate w.n_padding 0) = some cfg) :
    ∀ (n : Nat) (k : Int), 1 ≤ k →
      copyN env n ⟨k, some true⟩ = some ⟨k + n, some true⟩ := by
  intro n
  induction n with
  | zero => intro k hk; simp [copyN]
  | succ m ih =>
    intro k hk
    have hne : ¬((⟨k, some true⟩ : DNSState).dnsinfo_active = 0 ∨
        (⟨k, some true⟩ : DNSState).dnsinfo_client = none) := by
      rintro (h | h)
      · have hk0 : k = 0 := h
        omega
      · exact Option.noConfusion h
    have hC : (acquireStep env ⟨k, some true⟩).dnsinfo_client = some true := by
      rw [acquireStep_reuse env _ hne]
    have hcopy := copy_success env ⟨k, some true⟩ w cfg hA hC hR i1 i2 i3 hE
    have harith : (k + 1) + (m : Int) = k + ((m + 1 : Nat) : Int) := by push_cast; ring
    simp only [copyN, hcopy, Option.isSome_some, if_true]
    rw [ih (k + 1) (by omega), harith]

/-- Iterated successful copies starting from a closed connection: the first
call creates the client, each later one reuses it. -/
theorem copyN_from_closed (env : CopyEnv) (w : WireData) (cfg : DNSConfig) (N : Nat)
    (hA : env.libSC_available = true)
    (hCr : env.createResult = some true)
    (hR : env.reply = some (some w))
    (i1 : env.hdrSize + w.n_attribute = w.bytes.length)
    (i2 : w.n_padding ≤ env.maxBuf - w.bytes.length)
    (i3 : w.bytes.length + w.n_padding ≤ env.maxBuf)
    (hE : env.expand (w.bytes ++ List.replicate w.n_padding 0) = some cfg)
    (hN : 1 ≤ N) :
    copyN env N ⟨0, none⟩ = some ⟨(N : Int), some true⟩ := by
  obtain ⟨M, rfl⟩ : ∃ M, N = M + 1 := ⟨N - 1, by omega⟩
  have hC0 : (acquireStep env ⟨0, none⟩).dnsinfo_client = some true := by
    rw [acquireStep_create env _ (Or.inl rfl) hCr]
  have hcopy := copy_success env ⟨0, none⟩ w cfg hA hC0 hR i1 i2 i3 hE
  have harith : ((0 : Int) + 1) + (M : Int) = ((M + 1 : Nat) : Int) := by push_cast; ring
  simp only [copyN, hcopy, Option.isSome_some, if_true]
  rw [copyN_open env w cfg hA hR i1 i2 i3 hE M ((0 : Int) + 1) (by omega), harith]

/-- The first `k` of `n` release calls, `k < n`, decrement the refcount
without ever tearing the channel down. -/
theorem freeN_no_teardown : ∀ (k : Nat) (m : Int), (k : Int) < m →
    freeN k ⟨m, some true⟩ = (⟨m - k, some true⟩, 0) := by
  intro k
  induction k with
  | zero => intro m hm; simp [freeN]
  | succ j ih =>
    intro m hm
    have hstep : dns_configuration_free (some ⟨0⟩) ⟨m, some true⟩ =
        (⟨m - 1, some true⟩, false) := by
      simp only [dns_configuration_free]
      rw [if_neg (by omega : ¬(m - 1 = 0))]
    have hj : (j : Int) < m - 1 := by push_cast at hm ⊢; omega
    have harith : m - 1 - (j : Int) = m - ((j + 1 : Nat) : Int) := by push_cast; ring
    simp only [freeN, hstep, ih (m - 1) hj, harith]
    simp

/-- Exactly `n` release calls from refcount `n` bring the count to zero and
tear the channel down exactly once. -/
theorem freeN_final : ∀ n : Nat, 1 ≤ n →
    freeN n ⟨(n : Int), some true⟩ = (⟨0, none⟩, 1) := by
  intro n
  induction n with
  | zero => omega
  | succ m ih =>
    intro _
    by_cases hm : m = 0
    · subst hm
      decide
    · have hm1 : 1 ≤ m := by omega
      have hstep : dns_configuration_free (some ⟨0⟩) ⟨((m + 1 : Nat) : Int), some true⟩ =
          (⟨(m : Int), some true⟩, false) := by
        simp only [dns_configuration_free]
        rw [if_neg (by push_cast; omega : ¬(((m + 1 : Nat) : Int) - 1 = 0))]
        have : ((m + 1 : Nat) : Int) - 1 = (m : Int) := by push_cast; ring
        rw [this]
      simp only [freeN, hstep, ih hm1]
      simp

/--
C4: for every environment in which each copy call succeeds (service
available, client creation succeeds, valid reply blob, expansion succeeds),
`N ≥ 1` copy calls starting from a closed connection bring the refcount to
`N` with the channel open, and `N` release calls then bring the refcount
back to zero and tear the physical channel down exactly once — no prefix of
fewer than `N` releases tears it down.
-/
theorem dns_copy_refcount_acquire_release_balance
    (env : CopyEnv) (w : WireData) (cfg : DNSConfig) (N : Nat)
    (hA : env.libSC_available = true)
    (hCr : env.createResult = some true)
    (hR : env.reply = some (some w))
    (i1 : env.hdrSize + w.n_attribute = w.bytes.length)
    (i2 : w.n_padding ≤ env.maxBuf - w.bytes.length)
    (i3 : w.bytes.length + w.n_padding ≤ env.maxBuf)
    (hE : env.expand (w.bytes ++ List.replicate w.n_padding 0) = some cfg)
    (hN : 1 ≤ N) :
    copyN env N ⟨0, none⟩ = some ⟨(N : Int), some true⟩ ∧
    freeN N ⟨(N : Int), some true⟩ = (⟨0, none⟩, 1) ∧
    (∀ k : Nat, k < N → (freeN k ⟨(N : Int), some true⟩).2 = 0) := by
  refine ⟨copyN_from_closed env w cfg N hA hCr hR i1 i2 i3 hE hN,
    freeN_final N hN, ?_⟩
  intro k hk
  rw [freeN_no_teardown k (N : Int) (by exact_mod_cast hk)]

/--
C4 witness: three successful copy calls from a closed connection bring the
refcount to 3; three releases bring it back to zero, tearing the channel
down only on the third.
-/
theorem dns_copy_refcount_acquire_release_balance_witness :
    copyN
      ⟨true, some true, 8, 100, some (some ⟨2, 5, List.replicate 10 1⟩), fun _ => some ⟨1⟩⟩
      3 ⟨0, none⟩ = some ⟨((3 : Nat) : Int), some true⟩ ∧
    freeN 3 ⟨((3 : Nat) : Int), some true⟩ = (⟨0, none⟩, 1) ∧
    (freeN 2 ⟨((3 : Nat) : Int), some true⟩).2 = 0 := by
  have h := dns_copy_refcount_acquire_release_balance
    ⟨true, some true, 8, 100, some (some ⟨2, 5, List.replicate 10 1⟩), fun _ => some ⟨1⟩⟩
    ⟨2, 5, List.replicate 10 1⟩ ⟨1⟩ 3
    rfl rfl rfl (by decide) (by decide) (by decide) rfl (by omega)
  exact ⟨h.1, h.2.1, h.2.2 2 (by omega)⟩

/--
C9: `nwi_ifstate_compare_rank` is reflexive-equal (comparing a record with
itself yields EQUAL), antisymmetric (if it yields A_FIRST one way it yields
B_FIRST the other way), and a pure function of the stored rank metadata:
records with equal stored rank compare EQUAL regardless of identity.
-/
theorem nwi_compare_rank_refl_antisymm (a b : NwiIfstate) :
    nwi_ifstate_compare_rank a a = 0 ∧
    (nwi_ifstate_compare_rank a b = -1 → nwi_ifstate_compare_rank b a = 1) ∧
    (a.rank = b.rank → nwi_ifstate_compare_rank a b = 0) := by
  refine ⟨?_, ?_, ?_⟩
  · simp [nwi_ifstate_compare_rank]
  · intro h
    unfold nwi_ifstate_compare_rank at h ⊢
    split_ifs at h ⊢ <;> omega
  · intro h
    simp [nwi_ifstate_compare_rank, h]

/--
C9 witness: a record compares EQUAL with itself, and since en0 (rank 0)
ranks ahead of en1 (rank 1), comparing them the other way yields B_FIRST.
-/
theorem nwi_compare_rank_refl_antisymm_witness :
    nwi_ifstate_compare_rank ⟨"en0", 5, 0⟩ ⟨"en0", 5, 0⟩ = 0 ∧
    nwi_ifstate_compare_rank ⟨"en1", 3, 1⟩ ⟨"en0", 5, 0⟩ = 1 :=
  ⟨(nwi_compare_rank_refl_antisymm ⟨"en0", 5, 0⟩ ⟨"en1", 3, 1⟩).1,
   (nwi_compare_rank_refl_antisymm ⟨"en0", 5, 0⟩ ⟨"en1", 3, 1⟩).2.1 (by decide)⟩

/--
C10: when the copy call establishes the connection but then returns no
state — the reply is `NULL`, the reply carries no data blob, the blob's
byte count falls outside `[minHeaderSize, maxBufferSize]`, or expansion
fails — the refcount after the call equals the refcount before plus one:
the entry increment is not rolled back on these failure paths.
-/
theorem dns_copy_failure_paths_leak_refcount (env : CopyEnv) (s : DNSState)
    (hA : env.libSC_available = true)
    (hC : (acquireStep env s).dnsinfo_client = some true)
    (hFail :
      env.reply = none ∨
      env.reply = some none ∨
      (∃ w : WireData, env.reply = some (some w) ∧
        (w.bytes.length < env.hdrSize ∨ env.maxBuf < w.bytes.length)) ∨
      (∃ (w : WireData) (b : List Nat), env.reply = some (some w) ∧
        processReply env.hdrSize env.maxBuf (some w) = some (some b) ∧
        env.expand b = none)) :
    Option.map CopyOutcome.config (dns_configuration_copy env s) = some none ∧
    Option.map (fun o => o.state.dnsinfo_active) (dns_configuration_copy env s) =
      some (s.dnsinfo_active + 1) := by
  have hacq := acquireStep_client_active env s hC
  rcases hFail with hR | hR | ⟨w, hR, hw⟩ | ⟨w, b, hR, hP, hE⟩
  · constructor <;> (unfold dns_configuration_copy; simp [hA, hacq, hR])
  · have hP : processReply env.hdrSize env.maxBuf none = some none := rfl
    constructor <;> (unfold dns_configuration_copy; simp [hA, hacq, hR, hP])
  · have hP := processReply_out_of_range env.hdrSize env.maxBuf w hw
    constructor <;> (unfold dns_configuration_copy; simp [hA, hacq, hR, hP])
  · constructor <;> (unfold dns_configuration_copy; simp [hA, hacq, hR, hP, hE])

/--
C10 witness: with a `NULL` reply after a fresh successful connection, the
copy call returns `NULL` yet leaves the refcount at 1, one above its value
before the call.
-/
theorem dns_copy_failure_paths_leak_refcount_witness :
    Option.map CopyOutcome.config
      (dns_configuration_copy ⟨true, some true, 8, 100, none, fun _ => some ⟨1⟩⟩ ⟨0, none⟩) =
      some none ∧
    Option.map (fun o => o.state.dnsinfo_active)
      (dns_configuration_copy ⟨true, some true, 8, 100, none, fun _ => some ⟨1⟩⟩ ⟨0, none⟩) =
      some ((0 : Int) + 1) :=
  dns_copy_failure_paths_leak_refcount _ _ rfl rfl (Or.inl rfl)

end Configd
